import Mathlib

/-!
Shallow embedding of `src/server.ts` of the AyuSahayak repository:
the prescription-generation workflow (validation, patient lookup, history
read, prompt construction, external generation call, reconciliation, log
append), the HTTP `POST /api/generate_prescription` handler, and the
tool-call dispatcher.  External effects (file reads, the generation model,
file appends) are passed in as explicit oracle values; machine behaviour
such as JavaScript truthiness of strings is modelled explicitly.
-/

namespace AyuSahayak

/-- `interface Patient` (server.ts lines 27-33). -/
structure Patient where
  id : String
  name : String
  age : Nat
  diagnosis : String
  history : List String
deriving DecidableEq, Repr

/-- `interface PrescriptionRequest` (server.ts lines 35-39); the optional
`final_prescription` is an `Option`. -/
structure PrescriptionRequest where
  patient_id : String
  symptoms : String
  final_prescription : Option String
deriving DecidableEq, Repr

/-- Result shape of `generatePrescription` (server.ts line 76/101). -/
structure GenResult where
  generated : String
  prescription : String
  patient : Patient
deriving DecidableEq, Repr

/-- Oracle for the effectful steps of one `generatePrescription` call:
`historyRead` is the outcome of `fs.readFile('past_prescriptions.txt')`
(`none` = the read threw, e.g. the file is absent); `genResponse` is the
external model call `ai.models.generateContent`, a function of the prompt,
returning either a thrown error message or `response.text` (which may be
absent); `appendFile` is `fs.appendFile`, a function of the appended text,
either throwing or succeeding. -/
structure GenOracle where
  historyRead : Option String
  genResponse : String → Except String (Option String)
  appendFile : String → Except String Unit

/-- JavaScript `x || y` for `x` an optional string: `undefined` and the
empty string are falsy, every other string is truthy. -/
def jsOr : Option String → String → String
  | some f, g => if f = "" then g else f
  | none, g => g

/-- Whitespace as stripped by JavaScript `String.prototype.trim`
(restricted to the ASCII whitespace characters). -/
def jsIsWs (c : Char) : Bool := c = ' ' || c = '\t' || c = '\n' || c = '\r'

/-- Model of JavaScript `String.prototype.trim`: drop whitespace from both
ends of the string. -/
def jsTrim (s : String) : String :=
  ⟨((s.data.dropWhile jsIsWs).reverse.dropWhile jsIsWs).reverse⟩

/-- `generatePrompt` (server.ts lines 59-72): the template literal rendered
with `patient.age`, `patient.diagnosis`, `patient.history.join(', ')`, the
symptoms, and — only when `history` is truthy, i.e. non-empty — a
`Past data:` section holding the history text verbatim. -/
def generatePrompt (patient : Patient) (symptoms : String) (history : String) : String :=
  "\nYou are a licensed doctor. Based on the following patient details and symptoms, write a professional, short, and safe prescription using only generic medicine names.\n\nPatient Details:\n- Age: " ++
  toString patient.age ++
  "\n- Diagnosis: " ++ patient.diagnosis ++
  "\n- History: " ++ String.intercalate ", " patient.history ++
  "\n\nCurrent Symptoms: " ++ symptoms ++
  "\n\n" ++
  (if history = "" then "" else "Past data:\n" ++ history) ++
  "\n\nStart the prescription directly. Do not include disclaimers or introductions.\n"

/-- The line appended to `past_prescriptions.txt` (server.ts line 97):
the template literal carries a leading and a trailing newline. -/
def logEntry (pid symptoms prescription : String) : String :=
  "\nPatient: " ++ pid ++ " | Symptoms: " ++ symptoms ++ " | Prescription: " ++ prescription ++ "\n"

/-- `generatePrescription` (server.ts lines 74-102).  Returns the outcome
(`Except` of the thrown error message) together with the list of texts
appended to the history log during the call.  Mirrors the source line by
line: patient lookup (throw `Invalid patient ID` when absent), history read
with swallowed failure, prompt build, external call,
`generated = response.text?.trim() || ''`,
`finalOutput = req.final_prescription || generated`, log append, result. -/
def generatePrescription (patients : List Patient) (req : PrescriptionRequest)
    (o : GenOracle) : Except String GenResult × List String :=
  match patients.find? (fun p => p.id == req.patient_id) with
  | none => (.error "Invalid patient ID", [])
  | some patient =>
    let history := o.historyRead.getD ""
    let prompt := generatePrompt patient req.symptoms history
    match o.genResponse prompt with
    | .error e => (.error e, [])
    | .ok text =>
      let generated := jsOr (text.map jsTrim) ""
      let finalOutput := jsOr req.final_prescription generated
      let entry := logEntry req.patient_id req.symptoms finalOutput
      match o.appendFile entry with
      | .error e => (.error e, [])
      | .ok _ => (.ok ⟨generated, finalOutput, patient⟩, [entry])

/-- `app.post('/api/generate_prescription')` (server.ts lines 202-211):
`res.json(result)` answers with status 200; any thrown error is mapped to
status 500 with body `detail: message` (modelled as the `Sum.inr` case). -/
def postGeneratePrescription (patients : List Patient) (body : PrescriptionRequest)
    (o : GenOracle) : Nat × (GenResult ⊕ String) :=
  match (generatePrescription patients body o).1 with
  | .ok r => (200, .inl r)
  | .error e => (500, .inr e)

/-- A sequence of generation calls against an evolving log file.  Each call
reads the current log content, invokes the external model (whose response
for that call is supplied as the second component of the input pair) and,
on success, appends its entry to the log; appends always succeed.  Returns
the final log content and the entries appended across the run, in order. -/
def runGenerations (patients : List Patient) :
    String → List (PrescriptionRequest × Option String) → String × List String
  | log, [] => (log, [])
  | log, (req, text) :: rest =>
    match generatePrescription patients req ⟨some log, fun _ => .ok text, fun _ => .ok ()⟩ with
    | (.ok _, entries) =>
      let next := runGenerations patients (entries.foldl (fun acc e => acc ++ e) log) rest
      (next.1, entries ++ next.2)
    | (.error _, _) => runGenerations patients log rest

/-- Arguments object of a tool call, `Partial<PrescriptionRequest>`
(server.ts line 147): every field may be absent. -/
structure ToolArgs where
  patient_id : Option String
  symptoms : Option String
  final_prescription : Option String
deriving DecidableEq, Repr

/-- Model of the JSON string quoting used by `JSON.stringify`; character
escaping is elided (no claim inspects serialised content). -/
def jsonStr (s : String) : String := "\"" ++ s ++ "\""

/-- Model of `JSON.stringify(patient, null, 2)`: exact whitespace of the
pretty-printer is abstracted, the field order follows the interface. -/
def jsonStringifyPatient (p : Patient) : String :=
  "\x7b \"id\": " ++ jsonStr p.id ++ ", \"name\": " ++ jsonStr p.name ++
  ", \"age\": " ++ toString p.age ++ ", \"diagnosis\": " ++ jsonStr p.diagnosis ++
  ", \"history\": [" ++ String.intercalate ", " (p.history.map jsonStr) ++ "] \x7d"

/-- Model of `JSON.stringify(patients, null, 2)`. -/
def jsonStringifyPatients (ps : List Patient) : String :=
  "[" ++ String.intercalate ", " (ps.map jsonStringifyPatient) ++ "]"

/-- Model of `JSON.stringify(result, null, 2)` for a generation result. -/
def jsonStringifyResult (r : GenResult) : String :=
  "\x7b \"generated\": " ++ jsonStr r.generated ++ ", \"prescription\": " ++
  jsonStr r.prescription ++ ", \"patient\": " ++ jsonStringifyPatient r.patient ++ " \x7d"

/-- The `CallToolRequestSchema` handler (server.ts lines 146-177), returning
the text payload of the response.  `args` absent short-circuits to
`Missing arguments` before any tool runs; thrown errors inside the `try`
become `Error: <message>` payloads.  `histRead` is the outcome of the
history tool's `fs.readFile(...).catch(() => '')` (`none` = read threw).
In the `generate_prescription` branch the handler casts the partial
arguments, so an absent field reaches `generatePrescription` as JavaScript
`undefined`, which string interpolation renders as `undefined` and which
`===` never equates with a patient id; this is modelled by substituting the
string `undefined` for absent `patient_id`/`symptoms`. -/
def callTool (patients : List Patient) (histRead : Option String) (o : GenOracle)
    (name : String) (args : Option ToolArgs) : String :=
  match args with
  | none => "Missing arguments"
  | some a =>
    if name = "get_all_patients" then
      jsonStringifyPatients patients
    else if name = "get_patient_by_id" then
      if jsOr a.patient_id "" = "" then "Error: patient_id is required"
      else
        match patients.find? (fun p => p.id == jsOr a.patient_id "") with
        | none => "Error: Not found"
        | some p => jsonStringifyPatient p
    else if name = "generate_prescription" then
      match (generatePrescription patients
          ⟨a.patient_id.getD "undefined", a.symptoms.getD "undefined", a.final_prescription⟩ o).1 with
      | .ok r => jsonStringifyResult r
      | .error e => "Error: " ++ e
    else if name = "get_prescription_history" then
      let history := histRead.getD ""
      if history = "" then "No history found." else history
    else "Error: Unknown tool"

instance {ε α : Type} [DecidableEq ε] [DecidableEq α] : DecidableEq (Except ε α) := fun
  | .error a, .error b =>
    if h : a = b then .isTrue (h ▸ rfl) else .isFalse (fun hc => h (Except.error.inj hc))
  | .error _, .ok _ => .isFalse Except.noConfusion
  | .ok _, .error _ => .isFalse Except.noConfusion
  | .ok a, .ok b =>
    if h : a = b then .isTrue (h ▸ rfl) else .isFalse (fun hc => h (Except.ok.inj hc))

/-- Demo patient record, matching the scenario of the specification. -/
def pDemo : Patient := ⟨"p1", "Asha", 40, "flu", ["penicillin allergy"]⟩

/-- An oracle whose model call answers a fixed text and whose append
always succeeds; the log file does not exist yet. -/
def oDemo : GenOracle := ⟨none, fun _ => .ok (some "Take paracetamol."), fun _ => .ok ()⟩




/-- An oracle whose model call answers only whitespace. -/
def oBlank : GenOracle := ⟨none, fun _ => .ok (some "   "), fun _ => .ok ()⟩

/-- The part of the prompt template before the optional past-data section. -/
def promptHead (patient : Patient) (symptoms : String) : String :=
  "\nYou are a licensed doctor. Based on the following patient details and symptoms, write a professional, short, and safe prescription using only generic medicine names.\n\nPatient Details:\n- Age: " ++
  toString patient.age ++
  "\n- Diagnosis: " ++ patient.diagnosis ++
  "\n- History: " ++ String.intercalate ", " patient.history ++
  "\n\nCurrent Symptoms: " ++ symptoms ++
  "\n\n"

/-- The part of the prompt template after the optional past-data section. -/
def promptTail : String :=
  "\n\nStart the prescription directly. Do not include disclaimers or introductions.\n"

/-- Concatenation of a list of appended log texts, in order. -/
def concatLog : List String → String
  | [] => ""
  | e :: es => e ++ concatLog es

/-- The log text one successful generation call appends, as a function of the
request and of the model response for that call. -/
def expectedEntry (x : PrescriptionRequest × Option String) : String :=
  logEntry x.1.patient_id x.1.symptoms
    (jsOr x.1.final_prescription ((x.2.map jsTrim).getD ""))

/-- Two demo generation calls: one with the model text taken as is, one
with a caller override. -/
def demoInputs : List (PrescriptionRequest × Option String) :=
  [(⟨"p1", "fever", none⟩, some "Take paracetamol."),
   (⟨"p1", "cough", some "Custom plan"⟩, some "Take dextromethorphan.")]

lemma jsOr_empty_default (x : Option String) : jsOr x "" = x.getD "" := by
  cases x with
  | none => rfl
  | some t => by_cases h : t = "" <;> simp [jsOr, h]

/-- A request whose patient id matches no record fails the lookup with no
other effect, whatever the oracle holds. -/
lemma generate_no_match (patients : List Patient) (req : PrescriptionRequest)
    (o : GenOracle) (h : ∀ p ∈ patients, p.id ≠ req.patient_id) :
    generatePrescription patients req o = (.error "Invalid patient ID", []) := by
  have hf : patients.find? (fun p => p.id == req.patient_id) = none := by
    apply List.find?_eq_none.mpr
    intro p hp
    simpa using h p hp
  simp [generatePrescription, hf]

/-- Computation of one fully successful generation call. -/
lemma generate_success (patients : List Patient) (req : PrescriptionRequest)
    (o : GenOracle) (patient : Patient) (text : Option String)
    (hfind : patients.find? (fun p => p.id == req.patient_id) = some patient)
    (hgen : o.genResponse (generatePrompt patient req.symptoms (o.historyRead.getD "")) = .ok text)
    (happ : ∀ s, o.appendFile s = .ok ()) :
    generatePrescription patients req o =
      (.ok ⟨jsOr (text.map jsTrim) "", jsOr req.final_prescription (jsOr (text.map jsTrim) ""), patient⟩,
        [logEntry req.patient_id req.symptoms (jsOr req.final_prescription (jsOr (text.map jsTrim) ""))]) := by
  simp [generatePrescription, hfind, hgen, happ]

/-- On a success the appended texts are exactly one entry holding the
returned prescription. -/
lemma generate_ok_entries (patients : List Patient) (req : PrescriptionRequest)
    (o : GenOracle) (res : GenResult) (entries : List String)
    (h : generatePrescription patients req o = (.ok res, entries)) :
    entries = [logEntry req.patient_id req.symptoms res.prescription] := by
  unfold generatePrescription at h
  split at h
  · simp at h
  · dsimp only at h
    split at h
    · simp at h
    · split at h
      · simp at h
      · simp only [Prod.mk.injEq, Except.ok.injEq] at h
        obtain ⟨h1, h2⟩ := h
        subst h1 h2
        rfl

/-- C1 (counterexample): a request with a valid patient id and empty
symptoms is not rejected by any validation — the call succeeds, the
external capability is consulted and one entry is appended to the log. -/
theorem C1_counterexample :
    ∃ res, generatePrescription [pDemo] ⟨"p1", "", none⟩ oDemo =
      (.ok res, [logEntry "p1" "" "Take paracetamol."]) :=
  ⟨⟨"Take paracetamol.", "Take paracetamol.", pDemo⟩, by decide⟩

/-- C1 (amended): a request whose patient id is empty fails — with the
not-found error `Invalid patient ID`, the only rejection the code has —
before the external capability is consulted and before the history log is
mutated, provided no patient record carries an empty id; empty symptoms
are not validated. -/
theorem C1_empty_patient_id_fails_before_effects
    (patients : List Patient) (req : PrescriptionRequest) (o : GenOracle)
    (hids : ∀ p ∈ patients, p.id ≠ "") (hreq : req.patient_id = "") :
    generatePrescription patients req o = (.error "Invalid patient ID", []) :=
  generate_no_match patients req o (fun p hp => hreq ▸ hids p hp)

/-- C1 (witness): the empty patient id against the demo directory. -/
theorem C1_witness :
    generatePrescription [pDemo] ⟨"", "fever", none⟩ oDemo =
      (.error "Invalid patient ID", []) :=
  C1_empty_patient_id_fails_before_effects [pDemo] ⟨"", "fever", none⟩ oDemo
    (by decide) rfl

/-- C2: whenever a generation call runs to success, `generated` equals the
whitespace-trimmed model output (empty when the model returned no text),
`prescription` equals the caller-supplied `final_prescription` whenever it
is present and non-empty, and equals `generated` otherwise. -/
theorem C2_reconciliation (patients : List Patient) (req : PrescriptionRequest)
    (o : GenOracle) (patient : Patient) (text : Option String)
    (hfind : patients.find? (fun p => p.id == req.patient_id) = some patient)
    (hgen : o.genResponse (generatePrompt patient req.symptoms (o.historyRead.getD "")) = .ok text)
    (happ : ∀ s, o.appendFile s = .ok ()) :
    ∃ res entries, generatePrescription patients req o = (.ok res, entries) ∧
      res.generated = (text.map jsTrim).getD "" ∧
      (∀ f, req.final_prescription = some f → f ≠ "" → res.prescription = f) ∧
      ((req.final_prescription = none ∨ req.final_prescription = some "") →
        res.prescription = res.generated) := by
  refine ⟨_, _, generate_success patients req o patient text hfind hgen happ, ?_, ?_, ?_⟩
  · exact jsOr_empty_default _
  · intro f hf hne
    simp [hf, jsOr, hne]
  · rintro (hn | hn) <;> simp [hn, jsOr]

/-- C2 (witness): override `Custom plan` wins while `generated` keeps the
model output. -/
theorem C2_witness :
    ∃ res entries,
      generatePrescription [pDemo] ⟨"p1", "fever", some "Custom plan"⟩ oDemo =
        (.ok res, entries) ∧
      res.generated = (((some "Take paracetamol." : Option String)).map jsTrim).getD "" ∧
      (∀ f, (some "Custom plan" : Option String) = some f → f ≠ "" →
        res.prescription = f) ∧
      (((some "Custom plan" : Option String) = none ∨
          (some "Custom plan" : Option String) = some "") →
        res.prescription = res.generated) :=
  C2_reconciliation [pDemo] ⟨"p1", "fever", some "Custom plan"⟩ oDemo pDemo
    (some "Take paracetamol.") (by decide) rfl (fun _ => rfl)

/-- C3 (counterexample): an unknown patient id is answered with status 500
carrying the error message, not with status 404. -/
theorem C3_counterexample :
    postGeneratePrescription [pDemo] ⟨"unknown", "fever", none⟩ oDemo =
      (500, .inr "Invalid patient ID") ∧
    (postGeneratePrescription [pDemo] ⟨"unknown", "fever", none⟩ oDemo).1 ≠ 404 := by
  decide

/-- C3 (amended): the endpoint answers 200 with the result on success and
500 with the error message as detail on every failure — missing fields and
unknown patient ids included; no 400 or 404 branch exists. -/
theorem C3_status_mapping (patients : List Patient) (body : PrescriptionRequest)
    (o : GenOracle) :
    (∀ r, (generatePrescription patients body o).1 = .ok r →
      postGeneratePrescription patients body o = (200, .inl r)) ∧
    (∀ e, (generatePrescription patients body o).1 = .error e →
      postGeneratePrescription patients body o = (500, .inr e)) := by
  constructor <;> · intro x hx; simp [postGeneratePrescription, hx]

/-- C4: a request whose patient id matches no record in the directory
fails with the not-found outcome and constant output — independent of the
oracle, so the external capability is never consulted and the history log
is left unchanged. -/
theorem C4_unknown_patient_no_effects (patients : List Patient)
    (req : PrescriptionRequest) (o : GenOracle)
    (h : ∀ p ∈ patients, p.id ≠ req.patient_id) :
    generatePrescription patients req o = (.error "Invalid patient ID", []) :=
  generate_no_match patients req o h

/-- C4 (witness): the id `unknown` against the demo directory. -/
theorem C4_witness :
    generatePrescription [pDemo] ⟨"unknown", "fever", none⟩ oDemo =
      (.error "Invalid patient ID", []) :=
  C4_unknown_patient_no_effects [pDemo] ⟨"unknown", "fever", none⟩ oDemo (by decide)

/-- C5: a run of successful generations appends exactly one entry per call,
each the `Patient | Symptoms | Prescription` line over the request and its
reconciled prescription, in call order; the final log is the initial
content with exactly those entries appended after it, so prior content is
unchanged. -/
theorem C5_log_entries (patients : List Patient) (init : String)
    (inputs : List (PrescriptionRequest × Option String))
    (h : ∀ x ∈ inputs, ∃ p ∈ patients, p.id = x.1.patient_id) :
    runGenerations patients init inputs =
      (init ++ concatLog (inputs.map expectedEntry), inputs.map expectedEntry) := by
  induction inputs generalizing init with
  | nil => simp [runGenerations, concatLog]
  | cons head tail ih =>
    obtain ⟨req, text⟩ := head
    obtain ⟨p, hp, hid⟩ := h (req, text) (List.mem_cons_self _ _)
    cases hq : patients.find? (fun q => q.id == req.patient_id) with
    | none =>
      exfalso
      have hnone := List.find?_eq_none.mp hq p hp
      simp [hid] at hnone
    | some q =>
      have hgen := generate_success patients req
        ⟨some init, fun _ => .ok text, fun _ => .ok ()⟩ q text hq rfl (fun _ => rfl)
      simp only [runGenerations, hgen, List.foldl_cons, List.foldl_nil]
      rw [ih (init ++ logEntry req.patient_id req.symptoms
            (jsOr req.final_prescription (jsOr (text.map jsTrim) "")))
          (fun x hx => h x (List.mem_cons_of_mem _ hx))]
      simp [expectedEntry, concatLog, jsOr_empty_default, String.append_assoc]

/-- C5 (witness): two successful demo generations starting from an empty
log. -/
theorem C5_witness :
    runGenerations [pDemo] "" demoInputs =
      ("" ++ concatLog (demoInputs.map expectedEntry), demoInputs.map expectedEntry) :=
  C5_log_entries [pDemo] "" demoInputs (by decide)

/-- C6: the prompt builder is deterministic in its three inputs; the prompt
is a fixed head (holding the patient history items joined with a comma and
a space) followed by a `Past data` section exactly when the past history
text is non-empty — nothing else differs between the two cases — followed
by a fixed tail. -/
theorem C6_prompt_structure (p : Patient) (s h : String) :
    (∀ p' s' h', p' = p → s' = s → h' = h →
      generatePrompt p' s' h' = generatePrompt p s h) ∧
    generatePrompt p s h =
      promptHead p s ++ ((if h = "" then "" else "Past data:\n" ++ h) ++ promptTail) ∧
    (∃ u v, promptHead p s = u ++ (String.intercalate ", " p.history ++ v)) := by
  refine ⟨fun p' s' h' hp hs hh => by rw [hp, hs, hh], ?_, ?_⟩
  · by_cases hh : h = "" <;>
      simp [generatePrompt, promptHead, promptTail, hh, String.append_assoc]
  · exact ⟨"\nYou are a licensed doctor. Based on the following patient details and symptoms, write a professional, short, and safe prescription using only generic medicine names.\n\nPatient Details:\n- Age: " ++
        toString p.age ++ "\n- Diagnosis: " ++ p.diagnosis ++ "\n- History: ",
      "\n\nCurrent Symptoms: " ++ s ++ "\n\n",
      by simp [promptHead, String.append_assoc]⟩

/-- C7: a failed history-log read yields exactly the behaviour of reading
an empty log — the caller sees no error from the read, only empty prompt
context. -/
theorem C7_missing_log_read_is_empty_context (patients : List Patient)
    (req : PrescriptionRequest) (gen : String → Except String (Option String))
    (app : String → Except String Unit) :
    generatePrescription patients req ⟨none, gen, app⟩ =
      generatePrescription patients req ⟨some "", gen, app⟩ := rfl

/-- C8: when the model output trims to empty (or is absent) and no
non-empty override is supplied, the call still succeeds, returning empty
`generated` and `prescription` and appending one entry whose prescription
field is empty. -/
theorem C8_empty_model_output_succeeds (patients : List Patient)
    (req : PrescriptionRequest) (o : GenOracle) (patient : Patient)
    (text : Option String)
    (hfind : patients.find? (fun p => p.id == req.patient_id) = some patient)
    (hgen : o.genResponse (generatePrompt patient req.symptoms (o.historyRead.getD "")) = .ok text)
    (happ : ∀ s, o.appendFile s = .ok ())
    (htext : (text.map jsTrim).getD "" = "")
    (hover : req.final_prescription = none ∨ req.final_prescription = some "") :
    generatePrescription patients req o =
      (.ok ⟨"", "", patient⟩, [logEntry req.patient_id req.symptoms ""]) := by
  have h0 : jsOr (text.map jsTrim) "" = "" := by
    rw [jsOr_empty_default]
    exact htext
  have h1 : jsOr req.final_prescription "" = "" := by
    rcases hover with hh | hh <;> simp [hh, jsOr]
  rw [generate_success patients req o patient text hfind hgen happ, h0, h1]

/-- C8 (witness): a whitespace-only model answer with no override. -/
theorem C8_witness :
    generatePrescription [pDemo] ⟨"p1", "fever", none⟩ oBlank =
      (.ok ⟨"", "", pDemo⟩, [logEntry "p1" "fever" ""]) :=
  C8_empty_model_output_succeeds [pDemo] ⟨"p1", "fever", none⟩ oBlank pDemo
    (some "   ") (by decide) rfl (fun _ => rfl) (by decide) (Or.inl rfl)

/-- C9: every text a successful generation appends to the log begins with a
newline and ends with a newline, so an entry never continues the previous
line and consecutive entries are separated by a blank line. -/
theorem C9_entries_newline_wrapped (patients : List Patient)
    (req : PrescriptionRequest) (o : GenOracle) (res : GenResult)
    (entries : List String)
    (h : generatePrescription patients req o = (.ok res, entries)) :
    ∀ e ∈ entries, ∃ mid, e = "\n" ++ (mid ++ "\n") := by
  intro e he
  rw [generate_ok_entries patients req o res entries h] at he
  simp only [List.mem_singleton] at he
  subst he
  refine ⟨"Patient: " ++ (req.patient_id ++ (" | Symptoms: " ++
    (req.symptoms ++ (" | Prescription: " ++ res.prescription)))), ?_⟩
  have hsplit : ("\nPatient: " : String) = "\n" ++ "Patient: " := rfl
  simp only [logEntry, String.append_assoc]
  rw [hsplit, String.append_assoc]

/-- C9 (witness): the entry of the demo generation. -/
theorem C9_witness :
    ∃ mid, "\nPatient: p1 | Symptoms: fever | Prescription: Take paracetamol.\n" =
      "\n" ++ (mid ++ "\n") :=
  C9_entries_newline_wrapped [pDemo] ⟨"p1", "fever", none⟩ oDemo
    ⟨"Take paracetamol.", "Take paracetamol.", pDemo⟩
    ["\nPatient: p1 | Symptoms: fever | Prescription: Take paracetamol.\n"]
    (by decide)
    "\nPatient: p1 | Symptoms: fever | Prescription: Take paracetamol.\n" (by simp)

/-- C10: a tool call whose arguments object is absent answers the text
`Missing arguments` for every tool name — the zero-argument tools
included — and no tool body runs, the answer being independent of the
directory, the log and the oracle. -/
theorem C10_missing_args_short_circuits (patients : List Patient)
    (histRead : Option String) (o : GenOracle) (toolName : String) :
    callTool patients histRead o toolName none = "Missing arguments" := rfl

end AyuSahayak
